import Mathlib

/-!
# Verification of the product categorization engine

Shallow embedding of the core of the `cursor` repository:
`product_parser.py` (ProductNameParser), `brand_matcher.py`
(BrandMatcher / FlavorMatcher) and `auto_categorizer.py` (AutoCategorizer's
decision layer).

Conventions of the embedding:
* Python `str` is Lean `String`; substring tests (`in`), `startswith`,
  `split`, `strip`, `upper` are reimplemented below over `List Char`.
  `upper` is modelled for the character sets actually used by the program
  (ASCII and Cyrillic); all other characters pass through unchanged.
* Python `float` is modelled by `ℚ`.  Every numeric literal that the code
  compares against (0.4, 0.6, 0.8, 1.5, ...) is exactly representable, and
  no claim hinges on binary rounding.
* Python `dict` (whose iteration order is insertion order) is modelled by an
  association list in source order.
* `rapidfuzz` similarity scores are external library calls; the functions
  `fscore` (the per-pair maximum of ratio / partial / token-sort used by the
  brand matcher) and the single ratio used by the flavor matcher are taken
  as parameters, so every theorem below holds for an arbitrary scoring
  function.
* `None` becomes `Option.none`; Python truthiness of strings and floats
  (`x if x else d`) is modelled explicitly (`pyStrOr`, `pyFloatOr`).
-/

/-! ## String primitives -/

/-- Python `\s`-style whitespace test, restricted to the ASCII whitespace
characters (space, TAB, LF, VT, FF, CR). -/
def isPySpace (c : Char) : Bool :=
  c.toNat == 32 || (9 ≤ c.toNat && c.toNat ≤ 13)

/-- `str.upper()` for the character sets the program uses: ASCII letters and
the Cyrillic block (а–я, ё); other characters are unchanged. -/
def pyUpperChar (c : Char) : Char :=
  if 'a' ≤ c && c ≤ 'z' then Char.ofNat (c.toNat - 32)
  else if 'а' ≤ c && c ≤ 'я' then Char.ofNat (c.toNat - 32)
  else if c = 'ё' then 'Ё'
  else c

/-- `text.upper()`. -/
def up (s : String) : String := ⟨s.data.map pyUpperChar⟩

/-- Does `s` start with `p`?  (Python `str.startswith`.) -/
def leadsWith : List Char → List Char → Bool
  | [], _ => true
  | _ :: _, [] => false
  | a :: as, b :: bs => a == b && leadsWith as bs

/-- Python substring test `needle in hay` over char lists. -/
def pyInL (needle : List Char) : List Char → Bool
  | [] => needle.isEmpty
  | c :: t => leadsWith needle (c :: t) || pyInL needle t

/-- Python substring test `needle in hay` over strings. -/
def pyIn (needle hay : String) : Bool := pyInL needle.data hay.data

/-- `str.strip()`: drop leading and trailing whitespace. -/
def pyStrip (s : String) : String :=
  ⟨((s.data.dropWhile isPySpace).reverse.dropWhile isPySpace).reverse⟩

/-- `str.split()` with no argument: split on whitespace runs, no empties. -/
def pySplitAux : List Char → List Char → List String
  | [], acc => if acc.isEmpty then [] else [⟨acc.reverse⟩]
  | c :: t, acc =>
    if isPySpace c then
      if acc.isEmpty then pySplitAux t [] else (⟨acc.reverse⟩ : String) :: pySplitAux t []
    else pySplitAux t (c :: acc)

/-- `str.split()` (whitespace splitting). -/
def pySplit (s : String) : List String := pySplitAux s.data []

/-- Python truthiness default for strings: `x if x else d`. -/
def pyStrOr (o : Option String) (d : String) : String :=
  match o with
  | some s => if s = "" then d else s
  | none => d

/-- Python truthiness default for floats: `x if x else d` (`0.0` is falsy). -/
def pyFloatOr (o : Option ℚ) (d : ℚ) : ℚ :=
  match o with
  | some v => if v = 0 then d else v
  | none => d

/-! ## Volume regex (`product_parser.py`, `volume_patterns`)

The two patterns are `(\d+[,.]?\d*)\s*[ЛL]` and `(\d+)\s*[МM][ЛL]`, used via
`re.search` (leftmost match).  Both patterns are deterministic after greedy
matching: giving back characters from `\d+`/`\d*`/`\s*` always places a
digit or space in front of a character class that accepts neither, so a
greedy matcher (with the one explicit alternative at `[,.]?`) is exactly
the backtracking semantics. -/

/-- After the digits of pattern 1: `\s*[ЛL]` — skip spaces, require Л or L. -/
def pat1Tail (cs : List Char) : Bool :=
  match cs.dropWhile isPySpace with
  | [] => false
  | c :: _ => c == 'Л' || c == 'L'

/-- Try pattern 1 anchored at the head of `cs`; returns capture group 1. -/
def pat1At (cs : List Char) : Option (List Char) :=
  let d1 := cs.takeWhile Char.isDigit
  let rest := cs.dropWhile Char.isDigit
  if d1.isEmpty then none
  else
    let withSep : Option (List Char) :=
      match rest with
      | c :: rest2 =>
        if c == ',' || c == '.' then
          let d2 := rest2.takeWhile Char.isDigit
          let rest3 := rest2.dropWhile Char.isDigit
          if pat1Tail rest3 then some (d1 ++ c :: d2) else none
        else none
      | [] => none
    match withSep with
    | some g => some g
    | none => if pat1Tail rest then some d1 else none

/-- `re.search` for pattern 1: leftmost anchored match. -/
def searchPat1 : List Char → Option (List Char)
  | [] => none
  | c :: t =>
    match pat1At (c :: t) with
    | some g => some g
    | none => searchPat1 t

/-- Try pattern 2 (`(\d+)\s*[МM][ЛL]`) anchored at the head of `cs`. -/
def pat2At (cs : List Char) : Option (List Char) :=
  let d1 := cs.takeWhile Char.isDigit
  let rest := cs.dropWhile Char.isDigit
  if d1.isEmpty then none
  else
    match rest.dropWhile isPySpace with
    | m :: l :: _ => if (m == 'М' || m == 'M') && (l == 'Л' || l == 'L') then some d1 else none
    | _ => none

/-- `re.search` for pattern 2. -/
def searchPat2 : List Char → Option (List Char)
  | [] => none
  | c :: t =>
    match pat2At (c :: t) with
    | some g => some g
    | none => searchPat2 t

/-- Numeric value of a digit list (computed in ℕ, cast to ℚ once). -/
def natVal (ds : List Char) : ℚ :=
  ((ds.foldl (fun a c => 10 * a + (c.toNat - 48)) 0 : ℕ) : ℚ)

/-- Python `float()` on the captured group (after `,`→`.` replacement):
`<digits>` or `<digits>.<digits?>`.  `float("1.")` is `1.0`. -/
def ratOfGroup (g : List Char) : Option ℚ :=
  let ip := g.takeWhile Char.isDigit
  let rest := g.dropWhile Char.isDigit
  if ip.isEmpty then none
  else
    match rest with
    | [] => some (natVal ip)
    | '.' :: fp =>
      if fp.all Char.isDigit then some (natVal ip + natVal fp / (10 : ℚ) ^ fp.length)
      else none
    | _ => none

/-! ## Feature parser (`product_parser.py`) -/

/-- `ProductFeatures` (the dataclass).  `attributes` defaults to `[]`
(`__post_init__`), `confidence` to `0.0`. -/
structure ProductFeatures where
  original_name : String
  brand : Option String
  product_type : Option String
  volume : Option ℚ
  volume_unit : Option String
  flavor : Option String
  packaging : Option String
  carbonation : Option String
  sugar_free : Bool
  attributes : List String
  confidence : ℚ
deriving DecidableEq, Repr

/-- `packaging_keywords`, in source (dict insertion) order. -/
def packagingKeywords : List (String × String) :=
  [("ПЭТ", "PET"), ("PET", "PET"), ("Ж/Б", "CAN"), ("Ж.Б", "CAN"),
   ("ЖБ", "CAN"), ("СТЕКЛО", "GLASS"), ("БАНКА", "CAN"), ("CAN", "CAN"),
   ("БУТЫЛКА", "BOTTLE"), ("BOTTLE", "BOTTLE"), ("ЖЕСТЬ", "CAN"),
   ("АЛЮМИНИЙ", "CAN"), ("ТЕТРАПАК", "TETRA"), ("TETRAPAK", "TETRA")]

/-- `carbonation_keywords`, in source (dict insertion) order: the positive
keywords come first in the dict literal. -/
def carbonationKeywords : List (String × String) :=
  [("ГАЗ", "carbonated"), ("ГАЗИРОВАННАЯ", "carbonated"),
   ("ГАЗИРОВАННЫЙ", "carbonated"), ("БЕЗ ГАЗА", "non_carbonated"),
   ("НЕГАЗИРОВАННАЯ", "non_carbonated"), ("НЕГАЗИРОВАННЫЙ", "non_carbonated")]

/-- `product_types`, in source order. -/
def productTypes : List (String × String) :=
  [("ВОДА", "water"), ("НАПИТОК", "beverage"), ("СОК", "juice"),
   ("НЕКТАР", "nectar"), ("МОРС", "mors"), ("КВАС", "kvass"),
   ("КОЛА", "cola"), ("ЛИМОНАД", "lemonade"), ("ЭНЕРГЕТИК", "energy_drink"),
   ("ЧАЙ", "tea"), ("КОФЕ", "coffee")]

/-- `sugar_keywords`. -/
def sugarKeywords : List String :=
  ["БЕЗ САХАРА", "ZERO", "ЗЕРО", "LIGHT", "ЛАЙТ", "SUGAR FREE"]

/-- The static flavor list in `_extract_flavor`. -/
def flavorList : List String :=
  ["ЯБЛОКО", "АПЕЛЬСИН", "ЛИМОН", "ВИШНЯ", "ПЕРСИК", "ГРУША",
   "ДЮШЕС", "КЛУБНИКА", "МАЛИНА", "СМОРОДИНА", "ВИНОГРАД",
   "КОЛА", "ТАРХУН", "БУРАТИНО", "БАЙКАЛ", "САЯНЫ",
   "АНАНАС", "МАНГО", "МАНДАРИН", "ГРЕЙПФРУТ", "БАНАН",
   "ТОМАТ", "ТОМАТНЫЙ", "МУЛЬТИФРУКТ", "ТРОПИК"]

/-- `attribute_keywords`, in source order. -/
def attributeKeywords : List (String × String) :=
  [("ОСВЕТЛ", "clarified"), ("С МЯКОТЬЮ", "with_pulp"), ("С МЯК", "with_pulp"),
   ("БЕЗ МЯКОТИ", "no_pulp"), ("Б/А", "non_alcoholic"),
   ("БЕЗАЛКОГОЛЬНЫЙ", "non_alcoholic"), ("НАТУРАЛЬНЫЙ", "natural"),
   ("МИНЕРАЛЬНАЯ", "mineral"), ("ПИТЬЕВАЯ", "drinking"),
   ("СТОЛОВАЯ", "table"), ("ЛЕЧЕБНАЯ", "therapeutic")]

/-- `prefixes_to_remove` in `_extract_brand`. -/
def brandPrefixes : List String :=
  ["ЭНЕРГЕТИЧЕСКИЙ НАПИТОК", "МИНЕРАЛЬНАЯ ВОДА", "НАПИТОК", "ВОДА",
   "СОК", "НЕКТАР", "МОРС", "КВАС"]

/-- The generic-word stoplist shared by `_extract_brand` (last resort) and
the brand matcher's fuzzy tier. -/
def genericWords : List String :=
  ["НАПИТОК", "ВОДА", "СОК", "НЕКТАР", "МОРС", "КВАС"]

/-- First keyword of the table found as a substring of `text`
(dict iteration in insertion order, first hit wins). -/
def firstHit (tbl : List (String × String)) (text : String) : Option String :=
  (tbl.find? (fun p => pyIn p.1 text)).map (·.2)

/-- `_extract_volume`: try pattern 1 then pattern 2; `,` becomes `.`;
a `ValueError` from `float()` falls through to the next pattern.  Returns
`(volume, unit)` with unit always `'L'` on success. -/
def extractVolume (text : String) : Option ℚ × Option String :=
  let viaPat2 : Option ℚ × Option String :=
    match searchPat2 text.data with
    | some g =>
      match ratOfGroup g with
      | some v => (some v, some "L")
      | none => (none, none)
    | none => (none, none)
  match searchPat1 text.data with
  | some g =>
    match ratOfGroup (g.map (fun c => if c == ',' then '.' else c)) with
    | some v => (some v, some "L")
    | none => viaPat2
  | none => viaPat2

/-- Group of the first `\(([^)]+)\)` match: content between the first `(`
that is followed by at least one non-`)` character and then a `)`. -/
def bracketGroup : List Char → Option (List Char)
  | [] => none
  | c :: rest =>
    if c == '(' then
      let seg := rest.takeWhile (fun d => d != ')')
      let restAfter := rest.dropWhile (fun d => d != ')')
      if !restAfter.isEmpty && !seg.isEmpty then some seg else bracketGroup rest
    else bracketGroup rest

/-- `_extract_brand` (coarse guess; `text` is the normalized upper string). -/
def extractBrand (text : String) : Option String :=
  let viaBracket : Option String :=
    match bracketGroup text.data with
    | some seg =>
      let pb := pyStrip ⟨seg⟩
      if pb ≠ "" && !(pyIn ":" pb || pyIn ";" pb || pyIn "ООО" pb || pyIn "ОАО" pb)
      then some pb else none
    | none => none
  match viaBracket with
  | some b => some b
  | none =>
    let cleaned :=
      match brandPrefixes.find? (fun p => leadsWith p.data text.data) with
      | some p => pyStrip ⟨text.data.drop p.data.length⟩
      | none => text
    let viaFirstWord : Option String :=
      match pySplit cleaned with
      | w :: _ =>
        let fw := pyStrip w
        if fw ≠ "" && fw.data.length > 1 then some fw else none
      | [] => none
    match viaFirstWord with
    | some b => some b
    | none =>
      match pySplit text with
      | w :: _ =>
        let fw := pyStrip w
        if !(genericWords.contains fw) then some fw else none
      | [] => none

/-- `product_name.upper().strip()` — the normalization applied by `parse`. -/
def normalizeName (s : String) : String := pyStrip (up s)

/-- `ProductNameParser.parse`.  The parser's knowledge base is loaded by the
constructor but never read by any extraction method, so `parse` is a pure
function of its input. -/
def parse (productName : String) : ProductFeatures :=
  let normalized := normalizeName productName
  let vu := extractVolume normalized
  { original_name := productName
    volume := vu.1
    volume_unit := vu.2
    packaging := firstHit packagingKeywords normalized
    carbonation := firstHit carbonationKeywords normalized
    sugar_free := sugarKeywords.any (fun k => pyIn k normalized)
    product_type := firstHit productTypes normalized
    brand := extractBrand normalized
    flavor := flavorList.find? (fun f => pyIn f normalized)
    attributes := attributeKeywords.filterMap
      (fun p => if pyIn p.1 normalized then some p.2 else none)
    confidence := 0 }

/-! ## Transliteration (`brand_matcher.py`) -/

/-- `TRANSLIT_RU_TO_EN`. -/
def ruEnTable : List (Char × String) :=
  [('А', "A"), ('Б', "B"), ('В', "V"), ('Г', "G"), ('Д', "D"), ('Е', "E"),
   ('Ё', "E"), ('Ж', "ZH"), ('З', "Z"), ('И', "I"), ('Й', "Y"), ('К', "K"),
   ('Л', "L"), ('М', "M"), ('Н', "N"), ('О', "O"), ('П', "P"), ('Р', "R"),
   ('С', "S"), ('Т', "T"), ('У', "U"), ('Ф', "F"), ('Х', "H"), ('Ц', "TS"),
   ('Ч', "CH"), ('Ш', "SH"), ('Щ', "SCH"), ('Ъ', ""), ('Ы', "Y"), ('Ь', ""),
   ('Э', "E"), ('Ю', "YU"), ('Я', "YA")]

/-- `TRANSLIT_EN_TO_RU`. -/
def enRuTable : List (Char × String) :=
  [('A', "А"), ('B', "Б"), ('C', "К"), ('D', "Д"), ('E', "Е"), ('F', "Ф"),
   ('G', "Г"), ('H', "Х"), ('I', "И"), ('J', "ДЖ"), ('K', "К"), ('L', "Л"),
   ('M', "М"), ('N', "Н"), ('O', "О"), ('P', "П"), ('Q', "К"), ('R', "Р"),
   ('S', "С"), ('T', "Т"), ('U', "У"), ('V', "В"), ('W', "В"), ('X', "КС"),
   ('Y', "Й"), ('Z', "З")]

/-- Character-wise substitution after upper-casing, unmapped characters pass
through.  (In `transliterate_ru_to_en` the two-character lookahead branch
compares a length-2 slice against one-character strings, so it never fires
except on the final character, where the slice has length 1 and the branch
produces the same single-character substitution — the function is
character-wise.) -/
def translitWith (tbl : List (Char × String)) (s : String) : String :=
  ⟨((up s).data.map (fun c => ((List.lookup c tbl).map String.data).getD [c])).foldl
    (· ++ ·) []⟩

/-- `transliterate_ru_to_en`. -/
def ruToEn (s : String) : String := translitWith ruEnTable s

/-- `transliterate_en_to_ru`. -/
def enToRu (s : String) : String := translitWith enRuTable s

/-! ## Word tokenization for the fuzzy tiers

`re.findall(r'\b[А-ЯA-Z][А-ЯA-Z0-9]*\b', text)`: because of the word
boundaries, a maximal run of word characters yields a token exactly when the
entire run matches the character classes (a partially matching run is
rejected by the trailing `\b`, and interior starting positions are rejected
by the leading `\b`).  Word characters (`\w`) here: ASCII alphanumerics,
underscore, and the Cyrillic letters used by the data. -/

/-- Python `\w` for the program's character set. -/
def isWordChar (c : Char) : Bool :=
  let n := c.toNat
  (65 ≤ n && n ≤ 90) || (97 ≤ n && n ≤ 122) || (48 ≤ n && n ≤ 57) || n == 95 ||
  (1040 ≤ n && n ≤ 1103) || n == 1025 || n == 1105

/-- Uppercase letter of the class `[А-ЯA-Z]` (note: excludes Ё). -/
def isUpperTokenChar (c : Char) : Bool :=
  let n := c.toNat
  (1040 ≤ n && n ≤ 1071) || (65 ≤ n && n ≤ 90)

/-- Maximal runs of word characters. -/
def wordRunsAux : List Char → List Char → List (List Char)
  | [], acc => if acc.isEmpty then [] else [acc.reverse]
  | c :: t, acc =>
    if isWordChar c then wordRunsAux t (c :: acc)
    else if acc.isEmpty then wordRunsAux t [] else acc.reverse :: wordRunsAux t []

/-- Tokens of the brand matcher's fuzzy tier:
`\b[А-ЯA-Z][А-ЯA-Z0-9]*\b`. -/
def brandTokens (s : String) : List String :=
  (wordRunsAux s.data []).filterMap fun r =>
    match r with
    | c :: rest =>
      if isUpperTokenChar c && rest.all (fun d => isUpperTokenChar d || d.isDigit)
      then some ⟨r⟩ else none
    | [] => none

/-- Tokens of the flavor matcher's fuzzy tier: `\b[А-ЯA-Z]{3,}\b`. -/
def flavorTokens (s : String) : List String :=
  (wordRunsAux s.data []).filterMap fun r =>
    if r.length ≥ 3 && r.all isUpperTokenChar then some (⟨r⟩ : String) else none

/-! ## Brand matcher (`BrandMatcher.match_brand`) -/

/-- `BrandMatch` (the dataclass; the unused `variations` field is omitted —
it always defaults to `[]` in `match_brand`). -/
structure BrandMatch where
  original : String
  matched_brand : String
  confidence : ℚ
  method : String
deriving DecidableEq, Repr

/-- The brands database (`brands_db.json`): the canonical keys of `brands`
(only the keys are read by `match_brand`) and the `aliases` mapping, both in
dict insertion order. -/
structure BrandsDb where
  brands : List String
  aliases : List (String × String)
deriving DecidableEq, Repr

/-- The fuzzy tier's accumulation: for every (token, brand) pair in loop
order, record `(brand, score)` on strict improvement over the best score so
far (initially `0`, with no brand recorded).  `fscore w b` stands for the
external `max(fuzz.ratio, fuzz.partial_ratio, fuzz.token_sort_ratio)`. -/
def fuzzyBest (fscore : String → String → ℚ) (knownBrands : List String)
    (words : List String) : Option (String × ℚ) :=
  words.foldl
    (fun acc w =>
      if genericWords.contains w then acc
      else
        knownBrands.foldl
          (fun acc2 b =>
            let s := fscore w (up b)
            match acc2 with
            | some pr => if s > pr.2 then some (b, s) else acc2
            | none => if s > 0 then some (b, s) else none)
          acc)
    none

/-- `BrandMatcher.match_brand`.  Every theorem below holds for an arbitrary
scoring function `fscore`.  Thresholds are the instance constants
100/90/75/60. -/
def matchBrand (db : BrandsDb) (fscore : String → String → ℚ)
    (text : String) (knownBrands : List String) : Option BrandMatch :=
  let textU := up text
  -- 1. exact substring
  match knownBrands.find? (fun b => pyIn (up b) textU) with
  | some b => some ⟨text, b, 100, "exact"⟩
  | none =>
  -- 2. alias lookup
  match db.aliases.find? (fun p => pyIn p.1 textU) with
  | some p => some ⟨text, p.2, 95, "alias"⟩
  | none =>
  -- 3. transliteration
  let tEn := ruToEn textU
  let tRu := enToRu textU
  match knownBrands.find?
      (fun b => pyIn (ruToEn (up b)) tEn || pyIn (enToRu (up b)) tRu) with
  | some b => some ⟨text, b, 90, "translit"⟩
  | none =>
  -- 4. fuzzy: best (brand, score) over words × brands, strict improvement
  let words := brandTokens textU
  let best : Option (String × ℚ) := fuzzyBest fscore knownBrands words
  let viaAbbrev : Option BrandMatch :=
    -- 5. abbreviations: first brand some token of length ≥ 3 is a prefix of
    match knownBrands.find?
        (fun b => words.any (fun w => w.data.length ≥ 3 && leadsWith w.data (up b).data)) with
    | some b => some ⟨text, b, 80, "abbreviated"⟩
    | none => none
  match best with
  | some pr =>
    if pr.2 ≥ 60 then
      some ⟨text, pr.1, pr.2, if pr.2 ≥ 90 then "fuzzy_high" else "fuzzy_medium"⟩
    else viaAbbrev
  | none => viaAbbrev

/-! ## Flavor matcher (`FlavorMatcher.match_flavor`) -/

/-- `FlavorMatcher.match_flavor` over the flavors store (canonical flavor →
aliases, in dict order).  `fratio` stands for the external `fuzz.ratio`. -/
def matchFlavor (flavorsDb : List (String × List String))
    (fratio : String → String → ℚ) (text : String) : Option String :=
  let textU := up text
  match flavorsDb.find? (fun p => pyIn p.1 textU || p.2.any (fun a => pyIn a textU)) with
  | some p => some p.1
  | none =>
    (flavorTokens textU).findSome? fun w =>
      flavorsDb.findSome? fun p =>
        if fratio w p.1 ≥ 85 then some p.1
        else p.2.findSome? fun a => if fratio w a ≥ 85 then some p.1 else none

/-! ## Categorizer decision layer (`auto_categorizer.py`) -/

/-- The output record of `categorize_product` (the `result` dict).  The
`timestamp` field (`datetime.now()`) is a clock read and is omitted. -/
structure CatRecord where
  xcode : String
  xname : String
  category : String
  brand : String
  brand_confidence : ℚ
  litrag : ℚ
  catlitrag : String
  proizvod : String
  brand2 : String
  proizvod2 : String
  packqnt : ℕ
  pack : String
  subcategory : String
  sku : String
  vkus : String
  sugar_free : Bool
  carbonation : Option String
  product_type : Option String
deriving DecidableEq, Repr

/-- Membership of an optional string in a Python list
(`features.product_type in [...]`; `None in [...]` is false). -/
def optIn (o : Option String) (l : List String) : Bool :=
  match o with
  | some s => l.contains s
  | none => false

/-- `AutoCategorizer._determine_category`: the fixed first-match cascade. -/
def determineCategory (features : ProductFeatures) (xname : String) : String :=
  let x := up xname
  if pyIn "ВОДА" x && (pyIn "МИНЕРАЛЬНАЯ" x || pyIn "ПИТЬЕВАЯ" x) then "вода"
  else if features.carbonation == some "carbonated"
      && optIn features.product_type ["beverage", "cola", "lemonade"] then "газировка"
  else if optIn features.product_type ["juice", "nectar", "mors"] then "прочее"
  else if pyIn "ЭНЕРГЕТИК" x || features.product_type == some "energy_drink" then "энергетик"
  else if optIn features.product_type ["tea", "coffee"] then "прочее"
  else if features.carbonation == some "carbonated" then "газировка"
  else "прочее"

/-- The five global soda brands of `_determine_subcategory`. -/
def globalSodaBrands : List String :=
  ["COCA-COLA", "PEPSI", "SCHWEPPES", "SPRITE", "FANTA"]

/-- `AutoCategorizer._determine_subcategory`. -/
def determineSubcategory (features : ProductFeatures) (category : String)
    (xname : String) : String :=
  let x := up xname
  let volume := pyFloatOr features.volume 0
  if category = "газировка" then
    if globalSodaBrands.any (fun b => pyIn b x) then
      if volume < 4/5 then "Газированные напитки мировых брендов менее 0,8л"
      else "Газированные напитки мировых брендов более 0,8л"
    else
      if volume < 4/5 then "Газированные напитки российских брендов менее 0,8л"
      else "Газированные напитки российских брендов более 0,8л"
  else if category = "вода" then
    if pyIn "МИНЕРАЛЬНАЯ" x then
      if pyIn "ГАЗ" x then "Вода минеральная газированная"
      else "Вода минеральная негазированная"
    else "Вода питьевая"
  else if optIn features.product_type ["juice", "nectar"] then
    if volume ≤ 1/2 then "Соки и нектары менее 0,5л"
    else if volume ≤ 3/2 then "Соки и нектары более 0,5л и до 1,5л"
    else "Соки и нектары более 1,5л"
  else if category = "энергетик" then "Энергетические напитки"
  else "Прочие напитки"

/-- `AutoCategorizer._determine_volume_category`: Python `if not volume`
treats both `None` and `0.0` as "unknown". -/
def determineVolumeCategory (volume : Option ℚ) : String :=
  match volume with
  | none => "неизвестно"
  | some v =>
    if v = 0 then "неизвестно"
    else if v < 2/5 then "0-0,4л"
    else if v < 3/5 then "0,4-0,6л"
    else if v < 1 then "0,6-1л"
    else if v < 3/2 then "1,0-1,5л"
    else if v < 2 then "1,5-2,0л"
    else if v < 5/2 then "2,0-2,5л"
    else "2,5л+"

/-- `producers_map` in `_determine_producer`, in source order. -/
def producersMap : List (String × String) :=
  [("COCA-COLA", "COCA-COLA"), ("PEPSI", "PEPSICO"), ("ДОБРЫЙ", "PEPSICO"),
   ("ФРУКТОВЫЙ САД", "PEPSICO"), ("J7", "PEPSICO"),
   ("ADRENALINE", "ADRENALINE RUSH"), ("RICH", "COCA-COLA"),
   ("BONAQUA", "COCA-COLA"), ("SCHWEPPES", "COCA-COLA")]

/-- `AutoCategorizer._determine_producer`. -/
def determineProducer (brand : String) (xname : String) : String :=
  let brandU := up brand
  match producersMap.find? (fun p => pyIn p.1 brandU) with
  | some p => p.2
  | none =>
    match bracketGroup xname.data with
    | some seg =>
      let cand := up (pyStrip ⟨seg⟩)
      if !(pyIn ":" cand || pyIn "ООО" cand || pyIn "ОАО" cand || pyIn "ЗАО" cand)
      then cand else "LOCAL"
    | none => "LOCAL"

/-- `AutoCategorizer._determine_sku`. -/
def determineSku (brand flavor : String) : String :=
  if brand = "LOCAL" || brand = "" then
    if flavor ≠ "" then "LOCAL " ++ flavor else "LOCAL"
  else
    if flavor ≠ "" then brand ++ " " ++ flavor else brand

/-- `AutoCategorizer.categorize_product`: the per-product decision sequence.
The brand matcher is run against `list(brands_db['brands'].keys())`
(i.e. `db.brands`); the flavor matcher against the flavors store. -/
def categorizeProduct (db : BrandsDb) (flavorsDb : List (String × List String))
    (fscoreB fratioF : String → String → ℚ) (xcode xname : String) : CatRecord :=
  let features := parse xname
  let brandMatch := matchBrand db fscoreB xname db.brands
  let brandConf : String × ℚ :=
    match brandMatch with
    | some m => (m.matched_brand, m.confidence)
    | none => (pyStrOr features.brand "LOCAL", 50)
  let brand := brandConf.1
  let flavor :=
    match matchFlavor flavorsDb fratioF xname with
    | some f => if f = "" then pyStrOr features.flavor "CLASSIC" else f
    | none => pyStrOr features.flavor "CLASSIC"
  let category := determineCategory features xname
  let subcategory := determineSubcategory features category xname
  let volumeCategory := determineVolumeCategory features.volume
  let proizvod := determineProducer brand xname
  let sku := determineSku brand flavor
  { xcode := xcode
    xname := xname
    category := category
    brand := brand
    brand_confidence := brandConf.2
    litrag := pyFloatOr features.volume 0
    catlitrag := volumeCategory
    proizvod := proizvod
    brand2 := if brand ≠ "LOCAL" then brand else "LOCAL"
    proizvod2 := if proizvod ≠ "LOCAL" then proizvod else "LOCAL"
    packqnt := 1
    pack := pyStrOr features.packaging "CAN"
    subcategory := subcategory
    sku := sku
    vkus := flavor
    sugar_free := features.sugar_free
    carbonation := features.carbonation
    product_type := features.product_type }

/-! ## Helper lemmas -/

/-- `leadsWith` decides `List.IsPrefix`. -/
theorem leadsWith_iff (a : List Char) : ∀ b, leadsWith a b = true ↔ a <+: b := by
  induction a with
  | nil => intro b; simp [leadsWith]
  | cons x xs ih =>
    intro b
    cases b with
    | nil => simp [leadsWith, List.prefix_nil]
    | cons y ys => simp [leadsWith, List.cons_prefix_cons, ih, And.comm]

/-- `pyInL` decides `List.IsInfix`. -/
theorem pyInL_iff (a : List Char) : ∀ b, pyInL a b = true ↔ a <:+: b := by
  intro b
  induction b with
  | nil => simp [pyInL, List.infix_nil, List.isEmpty_iff]
  | cons c t ih => simp [pyInL, List.infix_cons_iff, leadsWith_iff, ih]

/-- Python substring containment is transitive. -/
theorem pyIn_trans {a b c : String} (h1 : pyIn a b = true) (h2 : pyIn b c = true) :
    pyIn a c = true := by
  rw [pyIn, pyInL_iff] at h1 h2 ⊢
  exact h1.trans h2

/-- With no known brands, the fuzzy accumulation stays empty. -/
theorem fuzzyBest_nil (fscore : String → String → ℚ) (words : List String) :
    fuzzyBest fscore [] words = none := by
  simp [fuzzyBest]

/-! ## Claim theorems -/

/-- C1: The spec requires the negative phrase to win: a name whose
uppercased text contains "БЕЗ ГАЗА" should parse as `non_carbonated`.  The
code iterates `carbonation_keywords` in dict order with "ГАЗ" first, and
"ГАЗ" is a substring of "БЕЗ ГАЗА", so every such name parses as
`carbonated` instead — the три `non_carbonated` keyword entries are
unreachable.  Evaluated here at the failing input "ВОДА БЕЗ ГАЗА", together
with the general statement. -/
theorem carbonation_negative_phrase_loses :
    (parse "ВОДА БЕЗ ГАЗА").carbonation = some "carbonated" ∧
    (parse "ВОДА БЕЗ ГАЗА").carbonation ≠ some "non_carbonated" ∧
    ∀ name : String, pyIn "БЕЗ ГАЗА" (normalizeName name) = true →
      (parse name).carbonation = some "carbonated" := by
  refine ⟨by decide, by decide, ?_⟩
  intro name h
  have hgaz : pyIn "ГАЗ" (normalizeName name) = true :=
    pyIn_trans (a := "ГАЗ") (by decide) h
  simp [parse, firstHit, carbonationKeywords, List.find?_cons_of_pos, hgaz]

/-- C1 witness: the general part of the theorem applied at the concrete
failing input. -/
theorem carbonation_negative_phrase_loses_witness :
    (parse "ВОДА БЕЗ ГАЗА").carbonation = some "carbonated" :=
  carbonation_negative_phrase_loses.2.2 "ВОДА БЕЗ ГАЗА" (by decide)

/-- C2: the claim says "500МЛ" should yield 0.5 liters.  The code's second
volume pattern captures only the digit group and never divides by 1000,
while still labelling the unit "L": `parse "500МЛ"` yields volume `500`
with unit `"L"`, not `0.5`. -/
theorem ml_volume_not_converted :
    (parse "500МЛ").volume = some 500 ∧
    (parse "500МЛ").volume_unit = some "L" ∧
    (500 : ℚ) ≠ 1/2 := by
  refine ⟨by decide, by decide, by norm_num⟩

/-- C6: `_determine_category` is total and, for every feature combination
and name, returns exactly one of the four labels вода / газировка /
энергетик / прочее (the if/elif cascade always reaches a return and every
return is one of the four constants). -/
theorem determineCategory_total (features : ProductFeatures) (xname : String) :
    determineCategory features xname ∈
      (["вода", "газировка", "энергетик", "прочее"] : List String) := by
  simp only [determineCategory]
  repeat' split <;> simp_all
  all_goals (intro ha; simp_all)

/-- C7: volume-bucket boundaries: 0.4 falls in "0,4-0,6л" (lower bound
inclusive to the higher bucket), 0.39999 in "0-0,4л", an absent volume maps
to "неизвестно", and every positive volume falls into one of the seven
bands (which, being the branches of one if/elif chain over an increasing
sequence of thresholds, are mutually exclusive). -/
theorem volume_bucket_boundaries :
    determineVolumeCategory (some (2/5)) = "0,4-0,6л" ∧
    determineVolumeCategory (some (39999/100000)) = "0-0,4л" ∧
    determineVolumeCategory none = "неизвестно" ∧
    ∀ v : ℚ, 0 < v →
      determineVolumeCategory (some v) ∈
        (["0-0,4л", "0,4-0,6л", "0,6-1л", "1,0-1,5л",
          "1,5-2,0л", "2,0-2,5л", "2,5л+"] : List String) := by
  refine ⟨by norm_num [determineVolumeCategory],
          by norm_num [determineVolumeCategory], rfl, ?_⟩
  intro v hv
  simp only [determineVolumeCategory]
  split_ifs with h0
  · exact absurd h0 hv.ne'
  all_goals simp

/-- C7 witness: the universal part applied at the concrete volume 1. -/
theorem volume_bucket_boundaries_witness :
    determineVolumeCategory (some 1) ∈
      (["0-0,4л", "0,4-0,6л", "0,6-1л", "1,0-1,5л",
        "1,5-2,0л", "2,0-2,5л", "2,5л+"] : List String) :=
  volume_bucket_boundaries.2.2.2 1 (by decide)

/-- C9: a volume of exactly 0.0 is treated as unknown: `if not volume`
is true for both `None` and `0.0`, so `_determine_volume_category` returns
"неизвестно" for a zero volume, and `categorize_product` records
`litrag = 0.0` and `catlitrag = "неизвестно"` whenever the parsed volume is
absent or zero — the two cases are indistinguishable in the output. -/
theorem zero_volume_indistinguishable (db : BrandsDb)
    (flavorsDb : List (String × List String)) (fsB frF : String → String → ℚ)
    (xcode xname : String)
    (h : (parse xname).volume = none ∨ (parse xname).volume = some 0) :
    determineVolumeCategory (some 0) = "неизвестно" ∧
    (categorizeProduct db flavorsDb fsB frF xcode xname).litrag = 0 ∧
    (categorizeProduct db flavorsDb fsB frF xcode xname).catlitrag = "неизвестно" := by
  refine ⟨rfl, ?_, ?_⟩ <;>
    rcases h with h | h <;>
      simp [categorizeProduct, h, pyFloatOr, determineVolumeCategory]

/-- C9 witness: the empty name parses with no volume; the categorizer
records `litrag = 0` and the unknown bucket. -/
theorem zero_volume_indistinguishable_witness :
    ((parse "").volume = none ∨ (parse "").volume = some 0) ∧
    determineVolumeCategory (some 0) = "неизвестно" ∧
    (categorizeProduct ⟨[], []⟩ [] (fun _ _ => 0) (fun _ _ => 0) "X" "").litrag = 0 ∧
    (categorizeProduct ⟨[], []⟩ [] (fun _ _ => 0) (fun _ _ => 0) "X" "").catlitrag
      = "неизвестно" :=
  ⟨Or.inl (by decide),
   zero_volume_indistinguishable ⟨[], []⟩ [] (fun _ _ => 0) (fun _ _ => 0) "X" ""
     (Or.inl (by decide))⟩

/-- C10: when no packaging keyword hits, the output record's `pack` field is
the concrete default "CAN" (`features.packaging if features.packaging else
'CAN'`), the same value produced for a genuinely detected can — the two are
indistinguishable in the output. -/
theorem pack_defaults_to_can (db : BrandsDb)
    (flavorsDb : List (String × List String)) (fsB frF : String → String → ℚ)
    (xcode xname : String) :
    ((parse xname).packaging = none →
      (categorizeProduct db flavorsDb fsB frF xcode xname).pack = "CAN") ∧
    ((parse xname).packaging = some "CAN" →
      (categorizeProduct db flavorsDb fsB frF xcode xname).pack = "CAN") := by
  constructor <;> intro h <;> simp [categorizeProduct, h, pyStrOr]

/-- C10 witness: "СОК" hits no packaging keyword and its record's `pack` is
"CAN". -/
theorem pack_defaults_to_can_witness :
    (parse "СОК").packaging = none ∧
    (categorizeProduct ⟨[], []⟩ [] (fun _ _ => 0) (fun _ _ => 0) "X" "СОК").pack
      = "CAN" :=
  ⟨by decide,
   (pack_defaults_to_can ⟨[], []⟩ [] (fun _ _ => 0) (fun _ _ => 0) "X" "СОК").1
     (by decide)⟩

/-- C3: if some known brand (uppercased) is a substring of the uppercased
text, `match_brand` returns a match with confidence exactly 100 and method
"exact" — the exact tier is the first of the cascade, so no later tier can
override it.  Holds for every brands-database state and every scoring
function. -/
theorem exact_tier_wins (db : BrandsDb) (fscore : String → String → ℚ)
    (text : String) (brands : List String)
    (h : ∃ b ∈ brands, pyIn (up b) (up text) = true) :
    ∃ m, matchBrand db fscore text brands = some m ∧
      m.confidence = 100 ∧ m.method = "exact" := by
  have h1 : (brands.find? (fun b => pyIn (up b) (up text))).isSome :=
    List.find?_isSome.mpr h
  obtain ⟨b, hb⟩ := Option.isSome_iff_exists.mp h1
  refine ⟨⟨text, b, 100, "exact"⟩, ?_, rfl, rfl⟩
  simp only [matchBrand, hb]

/-- C3 witness: a concrete known brand occurring verbatim in the text. -/
theorem exact_tier_wins_witness :
    ∃ m, matchBrand ⟨[], []⟩ (fun _ _ => 0) "КОЛА 0,5Л" ["КОЛА"] = some m ∧
      m.confidence = 100 ∧ m.method = "exact" :=
  exact_tier_wins ⟨[], []⟩ (fun _ _ => 0) "КОЛА 0,5Л" ["КОЛА"] (by decide)

/-- C4: whenever `match_brand` returns a match — for any text, brand list,
database state and scoring function — the confidence corresponds to the
method's fixed tier: exact=100, alias=95, translit=90, abbreviated=80,
fuzzy ≥ 60 with fuzzy_high exactly when the score is ≥ 90; and the method is
always one of the six tags.  (Confidence can never be "null": it is a total
field of the returned structure.) -/
theorem confidence_matches_method (db : BrandsDb) (fscore : String → String → ℚ)
    (text : String) (brands : List String) (m : BrandMatch)
    (h : matchBrand db fscore text brands = some m) :
    (m.method = "exact" → m.confidence = 100) ∧
    (m.method = "alias" → m.confidence = 95) ∧
    (m.method = "translit" → m.confidence = 90) ∧
    (m.method = "abbreviated" → m.confidence = 80) ∧
    (m.method = "fuzzy_high" → 90 ≤ m.confidence) ∧
    (m.method = "fuzzy_medium" → 60 ≤ m.confidence ∧ m.confidence < 90) ∧
    (m.method = "exact" ∨ m.method = "alias" ∨ m.method = "translit" ∨
     m.method = "fuzzy_high" ∨ m.method = "fuzzy_medium" ∨ m.method = "abbreviated") := by
  simp only [matchBrand] at h
  split at h
  · cases h; simp
  split at h
  · cases h; simp
  split at h
  · cases h; simp
  split at h
  case _ pr heq =>
    split at h
    case isTrue h60 =>
      split at h
      case isTrue h90 =>
        cases h
        refine ⟨by simp, by simp, by simp, by simp, fun _ => h90, by simp, ?_⟩
        simp
      case isFalse h90 =>
        cases h
        refine ⟨by simp, by simp, by simp, by simp, by simp,
                fun _ => ⟨h60, lt_of_not_le h90⟩, ?_⟩
        simp
    case isFalse h60 =>
      split at h
      · cases h; simp
      · exact absurd h (by simp)
  · split at h
    · cases h; simp
    · exact absurd h (by simp)

/-- C4 witness: applied to a concrete exact match. -/
theorem confidence_matches_method_witness :
    ((BrandMatch.mk "КОЛА" "КОЛА" 100 "exact").method = "exact" →
      (BrandMatch.mk "КОЛА" "КОЛА" 100 "exact").confidence = 100) ∧
    ((BrandMatch.mk "КОЛА" "КОЛА" 100 "exact").method = "alias" →
      (BrandMatch.mk "КОЛА" "КОЛА" 100 "exact").confidence = 95) ∧
    ((BrandMatch.mk "КОЛА" "КОЛА" 100 "exact").method = "translit" →
      (BrandMatch.mk "КОЛА" "КОЛА" 100 "exact").confidence = 90) ∧
    ((BrandMatch.mk "КОЛА" "КОЛА" 100 "exact").method = "abbreviated" →
      (BrandMatch.mk "КОЛА" "КОЛА" 100 "exact").confidence = 80) ∧
    ((BrandMatch.mk "КОЛА" "КОЛА" 100 "exact").method = "fuzzy_high" →
      90 ≤ (BrandMatch.mk "КОЛА" "КОЛА" 100 "exact").confidence) ∧
    ((BrandMatch.mk "КОЛА" "КОЛА" 100 "exact").method = "fuzzy_medium" →
      60 ≤ (BrandMatch.mk "КОЛА" "КОЛА" 100 "exact").confidence ∧
      (BrandMatch.mk "КОЛА" "КОЛА" 100 "exact").confidence < 90) ∧
    ((BrandMatch.mk "КОЛА" "КОЛА" 100 "exact").method = "exact" ∨
     (BrandMatch.mk "КОЛА" "КОЛА" 100 "exact").method = "alias" ∨
     (BrandMatch.mk "КОЛА" "КОЛА" 100 "exact").method = "translit" ∨
     (BrandMatch.mk "КОЛА" "КОЛА" 100 "exact").method = "fuzzy_high" ∨
     (BrandMatch.mk "КОЛА" "КОЛА" 100 "exact").method = "fuzzy_medium" ∨
     (BrandMatch.mk "КОЛА" "КОЛА" 100 "exact").method = "abbreviated") :=
  confidence_matches_method ⟨["КОЛА"], []⟩ (fun _ _ => 0) "КОЛА" ["КОЛА"]
    (BrandMatch.mk "КОЛА" "КОЛА" 100 "exact") (by decide)

/-- C5 counterexample: `match_brand(text, [])` is **not** null for every
text: the alias tier (tier 2) scans `brands_db['aliases']` independently of
the `known_brands` argument, so with a stored alias "КОЛА" → "COCA-COLA"
and the text "КОЛА", the call with the empty brand list still returns an
alias match (confidence 95). -/
theorem matchBrand_empty_not_always_none :
    matchBrand ⟨[], [("КОЛА", "COCA-COLA")]⟩ (fun _ _ => 0) "КОЛА" []
      = some ⟨"КОЛА", "COCA-COLA", 95, "alias"⟩ := by decide

/-- C5 (amended): with an empty known-brands list `match_brand` returns
null for every text **provided the database's alias table is empty** (as in
a freshly constructed matcher); and `parse("")` returns a ProductFeatures
with every optional field absent, `sugar_free = false` and no attributes,
raising no exception (the embedding is total). -/
theorem null_safety (db : BrandsDb) (fscore : String → String → ℚ)
    (text : String) (h : db.aliases = []) :
    matchBrand db fscore text [] = none ∧
    (parse "").brand = none ∧
    (parse "").product_type = none ∧
    (parse "").volume = none ∧
    (parse "").volume_unit = none ∧
    (parse "").flavor = none ∧
    (parse "").packaging = none ∧
    (parse "").carbonation = none ∧
    (parse "").sugar_free = false ∧
    (parse "").attributes = [] := by
  refine ⟨?_, by decide, by decide, by decide, by decide, by decide,
          by decide, by decide, by decide, by decide⟩
  simp only [matchBrand, h, List.find?_nil, fuzzyBest_nil]

/-- C5 witness: the amended theorem applied to the default (empty)
database. -/
theorem null_safety_witness :
    matchBrand ⟨[], []⟩ (fun _ _ => 0) "АБВ" [] = none ∧
    (parse "").brand = none ∧
    (parse "").product_type = none ∧
    (parse "").volume = none ∧
    (parse "").volume_unit = none ∧
    (parse "").flavor = none ∧
    (parse "").packaging = none ∧
    (parse "").carbonation = none ∧
    (parse "").sugar_free = false ∧
    (parse "").attributes = [] :=
  null_safety ⟨[], []⟩ (fun _ _ => 0) "АБВ" rfl

/-- C8: lookup misses are not errors.  When the brand matcher returns no
match, `categorize_product` falls back to the parser's coarse brand guess,
else to the sentinel "LOCAL", with brand confidence exactly 50; when the
flavor matcher returns no match it falls back to the parser's coarse flavor
guess, else to "CLASSIC".  (The embedding is a total function: no exception
is raised on the fallback path.) -/
theorem lookup_miss_fallbacks (db : BrandsDb)
    (flavorsDb : List (String × List String)) (fsB frF : String → String → ℚ)
    (xcode xname : String) :
    (matchBrand db fsB xname db.brands = none →
      (categorizeProduct db flavorsDb fsB frF xcode xname).brand
          = pyStrOr (parse xname).brand "LOCAL" ∧
      (categorizeProduct db flavorsDb fsB frF xcode xname).brand_confidence = 50) ∧
    (matchFlavor flavorsDb frF xname = none →
      (categorizeProduct db flavorsDb fsB frF xcode xname).vkus
          = pyStrOr (parse xname).flavor "CLASSIC") := by
  constructor <;> intro h <;> simp [categorizeProduct, h]

/-- C8 witness: with empty databases nothing matches and the record falls
back to the parser's guesses ("ЯБЛОКО" from "СОК ЯБЛОКО") with
confidence 50. -/
theorem lookup_miss_fallbacks_witness :
    matchBrand ⟨[], []⟩ (fun _ _ => 0) "СОК ЯБЛОКО" (BrandsDb.mk [] []).brands = none ∧
    matchFlavor [] (fun _ _ => 0) "СОК ЯБЛОКО" = none ∧
    (categorizeProduct ⟨[], []⟩ [] (fun _ _ => 0) (fun _ _ => 0) "X" "СОК ЯБЛОКО").brand
        = pyStrOr (parse "СОК ЯБЛОКО").brand "LOCAL" ∧
    (categorizeProduct ⟨[], []⟩ [] (fun _ _ => 0) (fun _ _ => 0) "X" "СОК ЯБЛОКО").brand_confidence
        = 50 ∧
    (categorizeProduct ⟨[], []⟩ [] (fun _ _ => 0) (fun _ _ => 0) "X" "СОК ЯБЛОКО").vkus
        = pyStrOr (parse "СОК ЯБЛОКО").flavor "CLASSIC" :=
  ⟨by decide, by decide,
   ((lookup_miss_fallbacks ⟨[], []⟩ [] (fun _ _ => 0) (fun _ _ => 0) "X" "СОК ЯБЛОКО").1
      (by decide)).1,
   ((lookup_miss_fallbacks ⟨[], []⟩ [] (fun _ _ => 0) (fun _ _ => 0) "X" "СОК ЯБЛОКО").1
      (by decide)).2,
   (lookup_miss_fallbacks ⟨[], []⟩ [] (fun _ _ => 0) (fun _ _ => 0) "X" "СОК ЯБЛОКО").2
      (by decide)⟩
